import Mathlib

/-!
# HttpRequest transport backends (src/core/channel/utils/HttpRequest.cpp)

A shallow embedding of the two `HttpRequestImpl` classes of `HttpRequest.cpp`:

* namespace `Desktop`: the WinHTTP implementation (lines 20-118), a blocking round trip
  that reports the response through the completion callback before `Send` returns;
* namespace `NonDesktop`: the `Windows::Web::Http` implementation (lines 119-194), a chain
  of task continuations.

The native stack is an explicit parameter: a record holding the reply of every native call
of one `Send`, and the outcome of the runtime steps that may raise a C++ exception.
Everything observable that the code does (native calls with their arguments and replies,
handle closes, diagnostics, completion callbacks) is recorded, in program order, in a trace.

Conventions.
* `std::wstring` is a Lean `String`; `c_str()` hands the text over unchanged.
* `std::string` and `std::vector<char>` are lists of bytes.
* `DWORD` values are naturals below `2^32`; arithmetic the code performs on a `DWORD`
  variable is reduced modulo `2^32` explicitly. `size_t` quantities (vector sizes) are
  naturals.
-/

namespace ApplicationInsights.core

/-! ## Value model (HttpRequest.hpp, HttpResponse.hpp, HttpHeaderField.hpp) -/

/-- A 32-bit unsigned machine word; the value is kept below `2^32` by the code that
updates it. -/
abbrev DWORD := Nat

/-- Contents of a `std::string` or `std::vector<char>`. -/
abbrev Bytes := List UInt8

/-- The conversion `static_cast<int>(d)` of a 32-bit unsigned value (also the implicit
conversion of `return err;`): values from `2^31` on become negative. -/
def static_cast_int (d : DWORD) : Int :=
  if d % 4294967296 < 2147483648 then Int.ofNat (d % 4294967296)
  else Int.ofNat (d % 4294967296) - 4294967296

/-- The request methods `HTTP_REQUEST_METHOD`. -/
inductive HTTP_REQUEST_METHOD where
  | GET
  | POST
  | PUT
deriving DecidableEq, Repr

/-- One header field: a name and a value, both unvalidated text. -/
structure HttpHeaderField where
  name : String
  value : String
deriving DecidableEq, Repr

/-- Modelled from the spec: `HttpHeaderField::ToWString` is declared outside the files at
hand; the spec renders a field as `"name: value"`. -/
def HttpHeaderField.ToWString (field : HttpHeaderField) : String :=
  field.name ++ ": " ++ field.value

/-- The data members of `HttpRequest` read by the backends (constructor at lines 203-212),
with the header fields in insertion order. -/
structure HttpRequest where
  m_Method : HTTP_REQUEST_METHOD
  m_Hostname : String
  m_RequestUri : String
  m_JsonPayload : String
  m_HeaderFields : List HttpHeaderField
deriving DecidableEq, Repr

/-- The response handed to the completion callback: what `SetErrorCode` and `SetPayload`
store. -/
structure HttpResponse where
  errorCode : Int
  payload : Bytes
deriving DecidableEq, Repr

/-- Modelled from the spec: the default-constructed `HttpResponse()` (its class is declared
outside the files at hand) has status code 0 and an empty payload. -/
def HttpResponse.empty : HttpResponse := ⟨0, []⟩

namespace Desktop

/-! ## Backend A: WinHTTP (lines 20-118) -/

/-- The port constant `INTERNET_DEFAULT_HTTPS_PORT` of the platform headers. -/
def INTERNET_DEFAULT_HTTPS_PORT : Nat := 443

/-- The flag constant `WINHTTP_FLAG_SECURE` of the platform headers. -/
def WINHTTP_FLAG_SECURE : DWORD := 8388608

/-- The handles the class works with, named after the variable that holds them. -/
inductive Handle where
  | hSession
  | hConnect
  | hRequest
deriving DecidableEq, Repr

/-- Reply of a native call: success with a value, or failure with the code that
`GetLastError()` reports right after it. -/
inductive Reply (α : Type) where
  | ok (value : α)
  | failed (err : DWORD)
deriving DecidableEq, Repr

/-- Everything observable that the backend does, in program order. -/
inductive Event where
  | WinHttpOpen (valid : Bool)
  | WinHttpConnect (hostname : String) (port : Nat) (reply : Reply Unit)
  | WinHttpOpenRequest (method : String) (requestUri : String) (flags : DWORD) (reply : Reply Unit)
  | WinHttpSendRequest (headers : String) (headersLength : DWORD) (payload : Bytes)
      (reply : Reply Unit)
  | WinHttpReceiveResponse (reply : Reply Unit)
  | WinHttpQueryHeaders (reply : Reply DWORD)
  | WinHttpQueryDataAvailable (reply : Reply DWORD)
  | WinHttpReadData (offset : DWORD) (numberOfBytesToRead : DWORD) (reply : Reply Bytes)
  | WinHttpCloseHandle (h : Handle)
  | WriteDebugLine (msg : String)
  | completionCallback (resp : HttpResponse)
deriving DecidableEq, Repr

/-- One use of `responseBuffer`: `count` elements starting at `offset`, while the vector
holds `size` elements. -/
structure Access where
  offset : Nat
  count : Nat
  size : Nat
deriving DecidableEq, Repr

/-- An access stays inside the vector. -/
def Access.inBounds (a : Access) : Bool := decide (a.offset + a.count ≤ a.size)

/-- Replies of the native stack during one turn of the body loop (lines 88-94), and
whether growing the buffer succeeds (`false`: `resize` raises `std::bad_alloc`). -/
structure Iteration where
  QueryDataAvailable : Reply DWORD
  grows : Bool
  ReadData : Reply Bytes

/-- The environment of one `Send`: the reply of each native call, in the order the code
makes them, and the outcome of the payload conversion (`none`: `to_bytes` raises). Once
`body` is used up the stack reports that no more data is available. -/
structure WinHttp where
  Connect : Reply Unit
  OpenRequest : Reply Unit
  to_bytes : String → Option Bytes
  SendRequest : Reply Unit
  ReceiveResponse : Reply Unit
  QueryHeaders : Reply DWORD
  body : List Iteration

/-- The data member of the desktop `HttpRequestImpl`: whether `hSession` is non-null. -/
structure HttpRequestImpl where
  hSession : Bool
deriving DecidableEq, Repr

/-- `Init` (lines 31-35): stores whatever `WinHttpOpen` returns, null included. -/
def Init (WinHttpOpen : Bool) : HttpRequestImpl × List Event :=
  (⟨WinHttpOpen⟩, [Event.WinHttpOpen WinHttpOpen])

/-- `Destroy` (lines 40-43): closes `hSession` and leaves the member as it is. -/
def Destroy (self : HttpRequestImpl) : HttpRequestImpl × List Event :=
  (self, [Event.WinHttpCloseHandle Handle.hSession])

/-- Two calls of `Destroy` in succession, with everything they do. -/
def DestroyTwice (self : HttpRequestImpl) : HttpRequestImpl × List Event :=
  ((Destroy (Destroy self).1).1, (Destroy self).2 ++ (Destroy (Destroy self).1).2)

/-- What leaves the `try` block by `throw`: a `DWORD` (the only type the handler of
line 106 catches) or a C++ exception of another type. -/
inductive Thrown where
  | dword (err : DWORD)
  | other
deriving DecidableEq, Repr

/-- How `Send` ends: by `return`, or by an exception that escapes it. -/
inductive Exit where
  | returned (value : Int)
  | raised
deriving DecidableEq, Repr

/-- The method text of line 63. -/
def methodName (m : HTTP_REQUEST_METHOD) : String :=
  if m = HTTP_REQUEST_METHOD.POST then "POST"
  else if m = HTTP_REQUEST_METHOD.GET then "GET" else "PUT"

/-- The header text of lines 67-72: `for_each` over the fields, appending
`field.ToWString() + L"\r\n"` to `all_headers`. -/
def all_headers (req : HttpRequest) : String :=
  req.m_HeaderFields.foldl (fun acc field => acc ++ (field.ToWString ++ "\r\n")) ""

/-- The call `std::vector<char>::resize(n)`: the first `n` elements are kept, new elements
are zero. -/
def resize (buffer : Bytes) (n : Nat) : Bytes :=
  buffer.take n ++ List.replicate (n - buffer.length) 0

/-- What `WinHttpReadData` stores: `bytes` from element `offset` of the buffer on. -/
def store (buffer : Bytes) (offset : Nat) (bytes : Bytes) : Bytes :=
  buffer.take offset ++ bytes ++ buffer.drop (offset + bytes.length)

/-- State of the body loop when it is left. -/
structure Body where
  events : List Event
  accesses : List Access
  responseBuffer : Bytes
  totalData : DWORD
  thrown : Option Thrown

/-- The body loop of lines 88-95, started with the given `responseBuffer` and
`totalData`. -/
def readBody : List Iteration → Bytes → DWORD → Body
  | [], responseBuffer, totalData =>
    ⟨[Event.WinHttpQueryDataAvailable (Reply.ok 0)], [], responseBuffer, totalData, none⟩
  | it :: rest, responseBuffer, totalData =>
    match it.QueryDataAvailable with
    | Reply.failed err =>
      ⟨[Event.WinHttpQueryDataAvailable (Reply.failed err)], [], responseBuffer, totalData,
        some (Thrown.dword err)⟩
    | Reply.ok availableData =>
      if availableData = 0 then
        ⟨[Event.WinHttpQueryDataAvailable (Reply.ok 0)], [], responseBuffer, totalData, none⟩
      else if it.grows = false then
        ⟨[Event.WinHttpQueryDataAvailable (Reply.ok availableData)], [], responseBuffer,
          totalData, some Thrown.other⟩
      else
        let grown := resize responseBuffer (responseBuffer.length + availableData)
        let target : Access := ⟨totalData, availableData, grown.length⟩
        match it.ReadData with
        | Reply.failed err =>
          ⟨[Event.WinHttpQueryDataAvailable (Reply.ok availableData),
            Event.WinHttpReadData totalData availableData (Reply.failed err)],
            [target], grown, totalData, some (Thrown.dword err)⟩
        | Reply.ok bytes =>
          let readData := bytes.length
          let total := (totalData + readData) % 4294967296
          let next := readBody rest (resize (store grown totalData bytes) total) total
          ⟨Event.WinHttpQueryDataAvailable (Reply.ok availableData)
              :: Event.WinHttpReadData totalData availableData (Reply.ok bytes) :: next.events,
            target :: ⟨totalData, readData, grown.length⟩ :: next.accesses,
            next.responseBuffer, next.totalData, next.thrown⟩

/-- The locals the handler of line 106 looks at, and what has been observed so far. -/
structure Frame where
  hConnect : Bool
  hRequest : Bool
  trace : List Event
  accesses : List Access

/-- The `try` block of lines 57-105. The payload of line 100,
`std::string(&responseBuffer[0], responseBuffer.size())`, is the content of the buffer;
the subscript `responseBuffer[0]` it starts from is logged as an access to element 0. -/
def tryBlock (self : HttpRequestImpl) (net : WinHttp) (req : HttpRequest) :
    Frame × Except Thrown Int :=
  if self.hSession = false then (⟨false, false, [], []⟩, Except.error (Thrown.dword 4294967295))
  else
    let connect := Event.WinHttpConnect req.m_Hostname INTERNET_DEFAULT_HTTPS_PORT net.Connect
    match net.Connect with
    | Reply.failed err => (⟨false, false, [connect], []⟩, Except.error (Thrown.dword err))
    | Reply.ok _ =>
    let openRequest := Event.WinHttpOpenRequest (methodName req.m_Method) req.m_RequestUri
      WINHTTP_FLAG_SECURE net.OpenRequest
    match net.OpenRequest with
    | Reply.failed err =>
      (⟨true, false, [connect, openRequest], []⟩, Except.error (Thrown.dword err))
    | Reply.ok _ =>
    match net.to_bytes req.m_JsonPayload with
    | none => (⟨true, true, [connect, openRequest], []⟩, Except.error Thrown.other)
    | some payload =>
    let sendRequest := Event.WinHttpSendRequest (all_headers req) 4294967295 payload
      net.SendRequest
    match net.SendRequest with
    | Reply.failed err =>
      (⟨true, true, [connect, openRequest, sendRequest], []⟩, Except.error (Thrown.dword err))
    | Reply.ok _ =>
    let receive := Event.WinHttpReceiveResponse net.ReceiveResponse
    match net.ReceiveResponse with
    | Reply.failed err =>
      (⟨true, true, [connect, openRequest, sendRequest, receive], []⟩,
        Except.error (Thrown.dword err))
    | Reply.ok _ =>
    let query := Event.WinHttpQueryHeaders net.QueryHeaders
    match net.QueryHeaders with
    | Reply.failed err =>
      (⟨true, true, [connect, openRequest, sendRequest, receive, query], []⟩,
        Except.error (Thrown.dword err))
    | Reply.ok http_code =>
    let body := readBody net.body [] 0
    let calls := [connect, openRequest, sendRequest, receive, query] ++ body.events
    match body.thrown with
    | some t => (⟨true, true, calls, body.accesses⟩, Except.error t)
    | none =>
      let resp : HttpResponse := ⟨static_cast_int http_code, body.responseBuffer⟩
      (⟨true, true,
        calls ++ [Event.WinHttpCloseHandle Handle.hRequest,
          Event.WinHttpCloseHandle Handle.hConnect, Event.completionCallback resp],
        body.accesses ++ [⟨0, 1, body.responseBuffer.length⟩]⟩, Except.ok 0)

/-- What one call of `Send` amounts to. -/
structure Outcome where
  exit : Exit
  trace : List Event
  accesses : List Access

/-- `Send` (lines 51-117): the `try` block, and for a thrown `DWORD` the handler of
lines 106-116. -/
def Send (self : HttpRequestImpl) (net : WinHttp) (req : HttpRequest) : Outcome :=
  match tryBlock self net req with
  | (frame, Except.ok value) => ⟨Exit.returned value, frame.trace, frame.accesses⟩
  | (frame, Except.error Thrown.other) => ⟨Exit.raised, frame.trace, frame.accesses⟩
  | (frame, Except.error (Thrown.dword err)) =>
    ⟨Exit.returned (static_cast_int err),
      frame.trace
        ++ (if frame.hRequest then [Event.WinHttpCloseHandle Handle.hRequest] else [])
        ++ (if frame.hConnect then [Event.WinHttpCloseHandle Handle.hConnect] else [])
        ++ [Event.WriteDebugLine "ERROR: Exception thrown while sending request"],
      frame.accesses⟩

/-! ### Reading a trace -/

/-- The error code of an event that is a failed native network call. -/
def Event.failure : Event → Option DWORD
  | Event.WinHttpConnect _ _ (Reply.failed err) => some err
  | Event.WinHttpOpenRequest _ _ _ (Reply.failed err) => some err
  | Event.WinHttpSendRequest _ _ _ (Reply.failed err) => some err
  | Event.WinHttpReceiveResponse (Reply.failed err) => some err
  | Event.WinHttpQueryHeaders (Reply.failed err) => some err
  | Event.WinHttpQueryDataAvailable (Reply.failed err) => some err
  | Event.WinHttpReadData _ _ (Reply.failed err) => some err
  | _ => none

/-- The native network calls: connect, open-request, send-request, receive-response,
query-headers, query-data-available and read-data. -/
def Event.isNetworkCall : Event → Bool
  | Event.WinHttpConnect _ _ _ => true
  | Event.WinHttpOpenRequest _ _ _ _ => true
  | Event.WinHttpSendRequest _ _ _ _ => true
  | Event.WinHttpReceiveResponse _ => true
  | Event.WinHttpQueryHeaders _ => true
  | Event.WinHttpQueryDataAvailable _ => true
  | Event.WinHttpReadData _ _ _ => true
  | _ => false

/-- Any call into the native stack: a network call or a handle close. -/
def Event.isNativeCall : Event → Bool
  | Event.WinHttpCloseHandle _ => true
  | Event.WinHttpOpen _ => true
  | ev => ev.isNetworkCall

/-- The responses handed to the completion callback, in order. -/
def callbacks : List Event → List HttpResponse
  | [] => []
  | Event.completionCallback resp :: rest => resp :: callbacks rest
  | _ :: rest => callbacks rest

/-- The events that follow the first failed network call of a trace. -/
def afterFailure : List Event → List Event
  | [] => []
  | ev :: rest => if ev.failure.isSome then rest else afterFailure rest

/-- The error codes of the failed network calls of a trace, in order. -/
def failures (trace : List Event) : List DWORD := trace.filterMap Event.failure

/-- How many times handle `h` was acquired: a successful connect yields `hConnect`, a
successful open-request yields `hRequest`, a valid `WinHttpOpen` yields `hSession`. -/
def acquired (h : Handle) : List Event → Nat
  | [] => 0
  | Event.WinHttpConnect _ _ (Reply.ok _) :: rest =>
    (if h = Handle.hConnect then 1 else 0) + acquired h rest
  | Event.WinHttpOpenRequest _ _ _ (Reply.ok _) :: rest =>
    (if h = Handle.hRequest then 1 else 0) + acquired h rest
  | Event.WinHttpOpen true :: rest =>
    (if h = Handle.hSession then 1 else 0) + acquired h rest
  | _ :: rest => acquired h rest

/-- How many times handle `h` was closed. -/
def closed (h : Handle) : List Event → Nat
  | [] => 0
  | Event.WinHttpCloseHandle k :: rest => (if h = k then 1 else 0) + closed h rest
  | _ :: rest => closed h rest

/-- The per-call handles still open at the end of a trace. -/
def outstanding (trace : List Event) : Nat :=
  (acquired Handle.hConnect trace - closed Handle.hConnect trace)
    + (acquired Handle.hRequest trace - closed Handle.hRequest trace)

/-! ### The successful run -/

/-- The turns of the body loop in which the stack announces `chunk.1` bytes, the buffer
grows, and the read delivers `chunk.2`. -/
def turns (chunks : List (DWORD × Bytes)) : List Iteration :=
  chunks.map (fun chunk => ⟨Reply.ok chunk.1, true, Reply.ok chunk.2⟩)

/-- The events of the body loop: bytes-available queries and reads. -/
def Event.isBodyCall : Event → Bool
  | Event.WinHttpQueryDataAvailable _ => true
  | Event.WinHttpReadData _ _ _ => true
  | _ => false

/-- The read of this turn returns at most the number of bytes requested. -/
def Iteration.readWithinRequest (it : Iteration) : Bool :=
  match it.QueryDataAvailable, it.ReadData with
  | Reply.ok availableData, Reply.ok bytes => decide (bytes.length ≤ availableData)
  | _, _ => true

/-- Every read of the script returns at most the number of bytes requested. -/
def readsWithinRequest (script : List Iteration) : Bool :=
  script.all Iteration.readWithinRequest

/-! ### Sample runs -/

/-- The request `GET example.com/status` with an empty payload and no header. -/
def statusRequest : HttpRequest :=
  ⟨HTTP_REQUEST_METHOD.GET, "example.com", "/status", "", []⟩

/-- The request `POST example.com/ingest` carrying a JSON payload and one header. -/
def ingestRequest : HttpRequest :=
  ⟨HTTP_REQUEST_METHOD.POST, "example.com", "/ingest", "\x7b\"a\":1\x7d",
    [⟨"Content-Type", "application/json"⟩]⟩

/-- The payload conversion on text that converts: the UTF-8 bytes of the text. -/
def utf8 (text : String) : Option Bytes := some text.toUTF8.data.toList

/-- A stack on which every call succeeds, answering with status `c` and the given body
turns. -/
def answering (c : DWORD) (body : List Iteration) : WinHttp :=
  ⟨Reply.ok (), Reply.ok (), utf8, Reply.ok (), Reply.ok (), Reply.ok c, body⟩

/-- The bytes of the body text `\x7b"ok":true\x7d`. -/
def okBody : Bytes := [123, 34, 111, 107, 34, 58, 116, 114, 117, 101, 125]

/-- A stack on which connect and open-request succeed and the payload conversion
raises. -/
def conversionRaises : WinHttp :=
  ⟨Reply.ok (), Reply.ok (), fun _ => none, Reply.ok (), Reply.ok (), Reply.ok 200, []⟩

/-- A stack on which every call succeeds and growing the buffer for the first 8192 body
bytes raises. -/
def growthRaises : WinHttp := answering 200 [⟨Reply.ok 8192, false, Reply.ok []⟩]

/-- A stack on which connect fails with `ERROR_WINHTTP_CANNOT_CONNECT` (12029). -/
def connectFails : WinHttp :=
  ⟨Reply.failed 12029, Reply.ok (), utf8, Reply.ok (), Reply.ok (), Reply.ok 200, []⟩

end Desktop

namespace NonDesktop

/-! ## Backend B: Windows::Web::Http (lines 119-194) -/

/-- What the three `catch` clauses tell apart: a platform `Exception^`, a
`std::exception`, anything else. -/
inductive Raised where
  | platform
  | standard
  | unknown
deriving DecidableEq, Repr

/-- The text encodings of `UnicodeEncoding`. -/
inductive UnicodeEncoding where
  | Utf8
  | Utf16LE
  | Utf16BE
deriving DecidableEq, Repr

/-- Everything observable that the backend does, in program order. -/
inductive Event where
  | PostAsync (uri : String) (content : String) (encoding : UnicodeEncoding)
      (mediaType : String)
  | WriteDebugLine (msg : String)
  | completionCallback (resp : HttpResponse)
deriving DecidableEq, Repr

/-- The environment of one `Send`: what each region of the code raises, if anything, and
what the native client delivers.
* `construct`: lines 147-152, building the URI, the client and the content;
* `PostAsync`: line 154, posting the request and chaining the continuation;
* `first`: lines 156-158, reading the status code and starting the body read;
* `to_bytes`: the conversion of line 160 (`none`: it raises). -/
structure HttpClient where
  construct : Option Raised
  PostAsync : Option Raised
  StatusCode : Int
  first : Option Raised
  content : String
  to_bytes : String → Option Bytes

/-- The non-desktop `HttpRequestImpl` has no data member. -/
structure HttpRequestImpl where
deriving DecidableEq, Repr

/-- `Init` (lines 130-132): empty. -/
def Init (self : HttpRequestImpl) : HttpRequestImpl × List Event := (self, [])

/-- `Destroy` (lines 134-136): empty. -/
def Destroy (self : HttpRequestImpl) : HttpRequestImpl × List Event := (self, [])

/-- Two calls of `Destroy` in succession, with everything they do. -/
def DestroyTwice (self : HttpRequestImpl) : HttpRequestImpl × List Event :=
  ((Destroy (Destroy self).1).1, (Destroy self).2 ++ (Destroy (Destroy self).1).2)

/-- The value returned by the `catch` clauses of lines 181-190. -/
def catchCode : Raised → Int
  | Raised.platform => -1
  | Raised.standard => -3
  | Raised.unknown => -2

/-- The second continuation (lines 158-166). It has no handler: when the conversion
raises, the exception leaves the lambda and the callback is not reached. -/
def secondContinuation (net : HttpClient) (code : Int) : List Event :=
  match net.to_bytes net.content with
  | none => []
  | some srpayload => [Event.completionCallback ⟨code, srpayload⟩]

/-- The first continuation (lines 154-180): each of its three handlers writes the
diagnostic and calls the callback with a default response. -/
def firstContinuation (net : HttpClient) : List Event :=
  match net.first with
  | some _ =>
    [Event.WriteDebugLine "ERROR: Exception thrown while sending",
      Event.completionCallback HttpResponse.empty]
  | none => secondContinuation net net.StatusCode

/-- What one call of `Send` amounts to: the value it returns, what happens before it
returns, and what the chained continuations do once the request completes. -/
structure Sent where
  result : Int
  trace : List Event
  later : List Event
deriving DecidableEq, Repr

/-- `Send` (lines 144-192). -/
def Send (_self : HttpRequestImpl) (net : HttpClient) (req : HttpRequest) : Sent :=
  match net.construct with
  | some r => ⟨catchCode r, [Event.WriteDebugLine "ERROR: Exception thrown while sending"], []⟩
  | none =>
    let post := Event.PostAsync ("https://" ++ req.m_Hostname ++ req.m_RequestUri)
      req.m_JsonPayload UnicodeEncoding.Utf8 "application/json"
    match net.PostAsync with
    | some r =>
      ⟨catchCode r, [post, Event.WriteDebugLine "ERROR: Exception thrown while sending"], []⟩
    | none => ⟨0, [post], firstContinuation net⟩

/-- The responses handed to the completion callback, in order. -/
def callbacks : List Event → List HttpResponse
  | [] => []
  | Event.completionCallback resp :: rest => resp :: callbacks rest
  | _ :: rest => callbacks rest

/-- The request `POST example.com/ingest` carrying a JSON payload and one header. -/
def ingestRequest : HttpRequest :=
  ⟨HTTP_REQUEST_METHOD.POST, "example.com", "/ingest", "\x7b\"a\":1\x7d",
    [⟨"Content-Type", "application/json"⟩]⟩

/-- The request `GET example.com/ingest` with the same payload and no header. -/
def getRequest : HttpRequest :=
  ⟨HTTP_REQUEST_METHOD.GET, "example.com", "/ingest", "\x7b\"a\":1\x7d", []⟩

/-- A client on which nothing raises: status 503 and an empty body. -/
def unavailable : HttpClient := ⟨none, none, 503, none, "", fun _ => some []⟩

/-- A client on which building the request raises a platform exception. -/
def constructRaises : HttpClient :=
  ⟨some Raised.platform, none, 503, none, "", fun _ => some []⟩

/-- A client on which the first continuation raises a platform exception. -/
def firstRaises : HttpClient :=
  ⟨none, none, 503, some Raised.platform, "", fun _ => some []⟩

/-- A client on which the body conversion of the second continuation raises. -/
def conversionRaises : HttpClient := ⟨none, none, 200, none, "ok", fun _ => none⟩

end NonDesktop

end ApplicationInsights.core

namespace ApplicationInsights.core

namespace Desktop

/-! ## Reading traces: how the observers distribute over concatenation -/

theorem callbacks_append (l m : List Event) :
    callbacks (l ++ m) = callbacks l ++ callbacks m := by
  induction l with
  | nil => rfl
  | cons ev rest ih => cases ev <;> simp [callbacks, ih]

theorem closed_append (h : Handle) (l m : List Event) :
    closed h (l ++ m) = closed h l + closed h m := by
  induction l with
  | nil => simp [closed]
  | cons ev rest ih => cases ev <;> simp [closed, ih, Nat.add_assoc]

theorem acquired_append (h : Handle) (l m : List Event) :
    acquired h (l ++ m) = acquired h l + acquired h m := by
  induction l with
  | nil => simp [acquired]
  | cons ev rest ih =>
    cases ev with
    | WinHttpOpen valid => cases valid <;> simp [acquired, ih, Nat.add_assoc]
    | WinHttpConnect _ _ reply => cases reply <;> simp [acquired, ih, Nat.add_assoc]
    | WinHttpOpenRequest _ _ _ reply => cases reply <;> simp [acquired, ih, Nat.add_assoc]
    | _ => simp [acquired, ih]

theorem afterFailure_append_clean (l m : List Event) (h : failures l = []) :
    afterFailure (l ++ m) = afterFailure m := by
  induction l with
  | nil => rfl
  | cons ev rest ih =>
    simp only [failures, List.filterMap_cons] at h
    cases hf : ev.failure with
    | none =>
      rw [hf] at h
      simp [afterFailure, hf, ih h]
    | some e => rw [hf] at h; simp at h

theorem afterFailure_append_failed (l m : List Event) (h : failures l ≠ []) :
    afterFailure (l ++ m) = afterFailure l ++ m := by
  induction l with
  | nil => simp [failures] at h
  | cons ev rest ih =>
    cases hf : ev.failure with
    | none =>
      have h2 : failures rest ≠ [] := by
        simpa [failures, List.filterMap_cons, hf] using h
      simp [afterFailure, hf, ih h2]
    | some e => simp [afterFailure, hf]

theorem mem_failures (trace : List Event) (e : DWORD) :
    e ∈ failures trace ↔ ∃ ev ∈ trace, ev.failure = some e := by
  simp [failures, List.mem_filterMap]

/-! ## The body loop -/

theorem readBody_isBodyCall (script : List Iteration) :
    ∀ (buffer : Bytes) (total : DWORD), ∀ ev ∈ (readBody script buffer total).events,
      ev.isBodyCall = true := by
  induction script with
  | nil => intro buffer total ev hev; simp [readBody] at hev; simp [hev, Event.isBodyCall]
  | cons it rest ih =>
    intro buffer total ev hev
    unfold readBody at hev
    split at hev
    · simp at hev; simp [hev, Event.isBodyCall]
    · split at hev
      · simp at hev; simp [hev, Event.isBodyCall]
      · split at hev
        · simp at hev; simp [hev, Event.isBodyCall]
        · split at hev
          · simp at hev
            rcases hev with h | h <;> simp [h, Event.isBodyCall]
          · simp only [List.mem_cons] at hev
            rcases hev with h | h | h
            · simp [h, Event.isBodyCall]
            · simp [h, Event.isBodyCall]
            · exact ih _ _ ev h

theorem callbacks_of_bodyCalls (l : List Event) (h : ∀ ev ∈ l, ev.isBodyCall = true) :
    callbacks l = [] := by
  induction l with
  | nil => rfl
  | cons ev rest ih =>
    have h1 := h ev (by simp)
    have h2 := ih (fun x hx => h x (by simp [hx]))
    cases ev <;> simp_all [callbacks, Event.isBodyCall]

theorem closed_of_bodyCalls (k : Handle) (l : List Event)
    (h : ∀ ev ∈ l, ev.isBodyCall = true) : closed k l = 0 := by
  induction l with
  | nil => rfl
  | cons ev rest ih =>
    have h1 := h ev (by simp)
    have h2 := ih (fun x hx => h x (by simp [hx]))
    cases ev <;> simp_all [closed, Event.isBodyCall]

theorem acquired_of_bodyCalls (k : Handle) (l : List Event)
    (h : ∀ ev ∈ l, ev.isBodyCall = true) : acquired k l = 0 := by
  induction l with
  | nil => rfl
  | cons ev rest ih =>
    have h1 := h ev (by simp)
    have h2 := ih (fun x hx => h x (by simp [hx]))
    cases ev <;> simp_all [acquired, Event.isBodyCall]

/-- The failed calls of the loop: none unless it is left by a thrown `DWORD`, and then
exactly the last call, with the thrown code. -/
theorem readBody_failures (script : List Iteration) :
    ∀ (buffer : Bytes) (total : DWORD),
      failures (readBody script buffer total).events
          = (match (readBody script buffer total).thrown with
            | some (Thrown.dword err) => [err]
            | _ => [])
        ∧ afterFailure (readBody script buffer total).events = [] := by
  induction script with
  | nil => intro buffer total; simp [readBody, failures, Event.failure, afterFailure]
  | cons it rest ih =>
    intro buffer total
    unfold readBody
    split
    · simp [failures, Event.failure, afterFailure]
    · split
      · simp [failures, Event.failure, afterFailure]
      · split
        · simp [failures, Event.failure, afterFailure]
        · split
          · simp [failures, Event.failure, afterFailure]
          · have h1 := fun b t => (ih b t).1
            have h2 := fun b t => (ih b t).2
            simp only [failures] at h1 ⊢
            simp [List.filterMap_cons, Event.failure, afterFailure, h1, h2]


theorem failures_append (l m : List Event) : failures (l ++ m) = failures l ++ failures m := by
  simp [failures, List.filterMap_append]

theorem failures_nil : failures [] = [] := rfl

theorem failures_cons (ev : Event) (l : List Event) :
    failures (ev :: l) = (match ev.failure with | some e => [e] | none => []) ++ failures l := by
  cases h : ev.failure <;> simp [failures, List.filterMap_cons, h]

theorem afterFailure_body_append (script : List Iteration) (buffer : Bytes) (total : DWORD)
    (m : List Event) :
    afterFailure ((readBody script buffer total).events ++ m)
      = if failures (readBody script buffer total).events = [] then afterFailure m else m := by
  by_cases h : failures (readBody script buffer total).events = []
  · simp [h, afterFailure_append_clean _ _ h]
  · simp [h, afterFailure_append_failed _ _ h, (readBody_failures script buffer total).2]

/-- C6. For every run of Backend A's `Send` in which some native network call (connect,
open-request, send-request, receive-response, query-headers, query-data-available or
read-data) fails with the native error code `e`: `Send` returns `e` converted to `int`,
no event after the failed call is a native network call (what follows is the closing of
the handles acquired so far and the diagnostic), and the completion callback is not
invoked. -/
theorem Send_native_failure (self : HttpRequestImpl) (net : WinHttp) (req : HttpRequest)
    (e : DWORD) (hfail : ∃ ev ∈ (Send self net req).trace, ev.failure = some e) :
    (Send self net req).exit = Exit.returned (static_cast_int e)
      ∧ (∀ ev ∈ afterFailure (Send self net req).trace, ev.isNetworkCall = false)
      ∧ callbacks (Send self net req).trace = [] := by
  rw [← mem_failures] at hfail
  have hB := readBody_isBodyCall net.body [] 0
  have hF := (readBody_failures net.body [] 0).1
  have hA := afterFailure_body_append net.body [] 0
  have hCb := callbacks_of_bodyCalls _ hB
  unfold Send tryBlock at *
  cases hs : self.hSession
  · simp [hs, failures, Event.failure] at hfail
  · cases hc : net.Connect with
    | failed err =>
      simp [hs, hc, failures, Event.failure] at hfail
      simp [hs, hc, hfail, afterFailure, Event.failure, Event.isNetworkCall, callbacks]
    | ok _ =>
      cases ho : net.OpenRequest with
      | failed err =>
        simp [hs, hc, ho, failures, Event.failure] at hfail
        simp [hs, hc, ho, hfail, afterFailure, Event.failure, Event.isNetworkCall, callbacks]
      | ok _ =>
        cases hp : net.to_bytes req.m_JsonPayload with
        | none => simp [hs, hc, ho, hp, failures, Event.failure] at hfail
        | some payload =>
          cases hsr : net.SendRequest with
          | failed err =>
            simp [hs, hc, ho, hp, hsr, failures, Event.failure] at hfail
            simp [hs, hc, ho, hp, hsr, hfail, afterFailure, Event.failure,
              Event.isNetworkCall, callbacks]
          | ok _ =>
            cases hr : net.ReceiveResponse with
            | failed err =>
              simp [hs, hc, ho, hp, hsr, hr, failures, Event.failure] at hfail
              simp [hs, hc, ho, hp, hsr, hr, hfail, afterFailure, Event.failure,
                Event.isNetworkCall, callbacks]
            | ok _ =>
              cases hq : net.QueryHeaders with
              | failed err =>
                simp [hs, hc, ho, hp, hsr, hr, hq, failures, Event.failure] at hfail
                simp [hs, hc, ho, hp, hsr, hr, hq, hfail, afterFailure, Event.failure,
                  Event.isNetworkCall, callbacks]
              | ok http_code =>
                cases hb : (readBody net.body [] 0).thrown with
                | none =>
                  simp only [hb] at hF
                  simp [hs, hc, ho, hp, hsr, hr, hq, hb, failures_cons, failures_append,
                    failures_nil, Event.failure, hF] at hfail
                | some t =>
                  cases t with
                  | other =>
                    simp only [hb] at hF
                    simp [hs, hc, ho, hp, hsr, hr, hq, hb, failures_cons, failures_append,
                      failures_nil, Event.failure, hF] at hfail
                  | dword err =>
                    simp only [hb] at hF
                    simp [hs, hc, ho, hp, hsr, hr, hq, hb, failures_cons, failures_append,
                      failures_nil, Event.failure, hF] at hfail
                    simp [hs, hc, ho, hp, hsr, hr, hq, hb, hfail, afterFailure, Event.failure,
                      Event.isNetworkCall, callbacks, callbacks_append, hCb, hA, hF]

/-! ## The successful run -/

theorem resize_grow (buffer : Bytes) (n : Nat) :
    resize buffer (buffer.length + n) = buffer ++ List.replicate n 0 := by
  simp [resize]

theorem store_at_end (buffer bytes extra : Bytes) :
    store (buffer ++ extra) buffer.length bytes = buffer ++ bytes ++ extra.drop bytes.length := by
  simp [store, List.drop_append_eq_append_drop, List.take_append_eq_append_take]

theorem resize_shrink (buffer extra : Bytes) (n : Nat) (h : n ≤ buffer.length) :
    resize (buffer ++ extra) n = buffer.take n := by
  have h0 : n - (buffer.length + extra.length) = 0 := by omega
  simp [resize, h0, List.take_append_of_le_length h]

/-- One turn of the loop on a buffer whose size is `totalData`: the buffer afterwards. -/
theorem resize_store (buffer bytes : Bytes) (availableData : Nat) :
    resize (store (resize buffer (buffer.length + availableData)) buffer.length bytes)
        ((buffer.length + bytes.length) % 4294967296)
      = (buffer ++ bytes).take ((buffer.length + bytes.length) % 4294967296) := by
  rw [resize_grow, store_at_end]
  apply resize_shrink
  simp only [List.length_append]
  exact Nat.mod_le _ _

theorem length_take_mod (buffer bytes : Bytes) :
    ((buffer ++ bytes).take ((buffer.length + bytes.length) % 4294967296)).length
      = (buffer.length + bytes.length) % 4294967296 := by
  simp only [List.length_take, List.length_append]
  exact Nat.min_eq_left (Nat.mod_le _ _)

/-- C2. For every request, when the session handle is null `Send` returns -1 (the
`DWORD` `0xFFFFFFFF` converted to `int`) and calls nothing of the native stack: the trace
is the diagnostic line alone, with no connect, open-request, send, receive or handle
close. -/
theorem Send_no_session (self : HttpRequestImpl) (net : WinHttp) (req : HttpRequest)
    (h : self.hSession = false) :
    (Send self net req).exit = Exit.returned (-1)
      ∧ static_cast_int 4294967295 = -1
      ∧ (Send self net req).trace
          = [Event.WriteDebugLine "ERROR: Exception thrown while sending request"]
      ∧ (∀ ev ∈ (Send self net req).trace, ev.isNativeCall = false) := by
  have hc : static_cast_int 4294967295 = -1 := by decide
  simp [Send, tryBlock, h, hc, Event.isNativeCall, Event.isNetworkCall]

/-- C2, witness: after an `Init` that obtained no session the status request returns -1
and only writes the diagnostic, whatever the stack would have answered. -/
theorem Send_no_session_witness :
    (Init false).1.hSession = false
      ∧ (Send (Init false).1 (answering 200 (turns [(11, okBody)])) statusRequest).exit
        = Exit.returned (-1)
      ∧ (Send (Init false).1 (answering 200 (turns [(11, okBody)])) statusRequest).trace
        = [Event.WriteDebugLine "ERROR: Exception thrown while sending request"] :=
  ⟨rfl, (Send_no_session (Init false).1 _ _ rfl).1,
    (Send_no_session (Init false).1 _ _ rfl).2.2.1⟩

/-- C3, failing input. When the payload conversion raises after connect and open-request
have succeeded, `Send` is left by the exception with both per-call handles acquired and
neither closed: two handles stay open. The same happens when growing the response buffer
raises. -/
theorem Send_leaks_when_step_raises :
    (Send ⟨true⟩ conversionRaises ingestRequest).exit = Exit.raised
      ∧ acquired Handle.hConnect (Send ⟨true⟩ conversionRaises ingestRequest).trace = 1
      ∧ closed Handle.hConnect (Send ⟨true⟩ conversionRaises ingestRequest).trace = 0
      ∧ acquired Handle.hRequest (Send ⟨true⟩ conversionRaises ingestRequest).trace = 1
      ∧ closed Handle.hRequest (Send ⟨true⟩ conversionRaises ingestRequest).trace = 0
      ∧ outstanding (Send ⟨true⟩ conversionRaises ingestRequest).trace = 2
      ∧ (Send ⟨true⟩ growthRaises statusRequest).exit = Exit.raised
      ∧ outstanding (Send ⟨true⟩ growthRaises statusRequest).trace = 2 := by
  decide

/-- C10, failing input. A successful response with an empty body (the first
bytes-available query reports zero): `Send` returns 0 and hands over the empty payload,
and the one buffer access it makes is the subscript `responseBuffer[0]` of line 100 on a
vector of size 0, which is out of bounds. -/
theorem Send_empty_body_subscript :
    (Send ⟨true⟩ (answering 200 []) statusRequest).exit = Exit.returned 0
      ∧ (Send ⟨true⟩ (answering 200 []) statusRequest).accesses = [⟨0, 1, 0⟩]
      ∧ Access.inBounds ⟨0, 1, 0⟩ = false
      ∧ callbacks (Send ⟨true⟩ (answering 200 []) statusRequest).trace = [⟨200, []⟩] := by
  decide

/-- C6, witness: a connect that fails with code 12029 makes `Send` return 12029 without
invoking the callback. -/
theorem Send_native_failure_witness :
    (Send ⟨true⟩ connectFails statusRequest).exit = Exit.returned 12029
      ∧ callbacks (Send ⟨true⟩ connectFails statusRequest).trace = [] := by
  have h := Send_native_failure ⟨true⟩ connectFails statusRequest 12029
    ⟨Event.WinHttpConnect "example.com" 443 (Reply.failed 12029), by decide, rfl⟩
  have hc : static_cast_int 12029 = 12029 := by decide
  rw [hc] at h
  exact ⟨h.1, h.2.2⟩

/-! ## Handles on the paths that return -/

/-- Whenever `Send` returns (success or native failure), each per-call handle has been
closed as often as it was acquired, at most once. -/
theorem Send_returned_balanced (self : HttpRequestImpl) (net : WinHttp) (req : HttpRequest)
    (value : Int) (h : (Send self net req).exit = Exit.returned value) :
    closed Handle.hConnect (Send self net req).trace
        = acquired Handle.hConnect (Send self net req).trace
      ∧ closed Handle.hRequest (Send self net req).trace
        = acquired Handle.hRequest (Send self net req).trace
      ∧ acquired Handle.hConnect (Send self net req).trace ≤ 1
      ∧ acquired Handle.hRequest (Send self net req).trace ≤ 1
      ∧ outstanding (Send self net req).trace = 0 := by
  have hB := readBody_isBodyCall net.body [] 0
  have hC1 := closed_of_bodyCalls Handle.hConnect _ hB
  have hC2 := closed_of_bodyCalls Handle.hRequest _ hB
  have hA1 := acquired_of_bodyCalls Handle.hConnect _ hB
  have hA2 := acquired_of_bodyCalls Handle.hRequest _ hB
  unfold Send tryBlock at *
  cases hs : self.hSession
  · simp [hs, closed, acquired, outstanding]
  · cases hc : net.Connect with
    | failed err => simp [hs, hc, closed, acquired, outstanding]
    | ok _ =>
      cases ho : net.OpenRequest with
      | failed err => simp [hs, hc, ho, closed, acquired, outstanding]
      | ok _ =>
        cases hp : net.to_bytes req.m_JsonPayload with
        | none => simp [hs, hc, ho, hp] at h
        | some payload =>
          cases hsr : net.SendRequest with
          | failed err => simp [hs, hc, ho, hp, hsr, closed, acquired, outstanding]
          | ok _ =>
            cases hr : net.ReceiveResponse with
            | failed err => simp [hs, hc, ho, hp, hsr, hr, closed, acquired, outstanding]
            | ok _ =>
              cases hq : net.QueryHeaders with
              | failed err =>
                simp [hs, hc, ho, hp, hsr, hr, hq, closed, acquired, outstanding]
              | ok http_code =>
                cases hb : (readBody net.body [] 0).thrown with
                | none =>
                  simp [hs, hc, ho, hp, hsr, hr, hq, hb, closed, acquired, outstanding,
                    closed_append, acquired_append, hC1, hC2, hA1, hA2]
                | some t =>
                  cases t with
                  | other => simp [hs, hc, ho, hp, hsr, hr, hq, hb] at h
                  | dword err =>
                    simp [hs, hc, ho, hp, hsr, hr, hq, hb, closed, acquired, outstanding,
                      closed_append, acquired_append, hC1, hC2, hA1, hA2]

/-! ## Bounds of the buffer accesses -/

theorem length_resize (buffer : Bytes) (n : Nat) : (resize buffer n).length = n := by
  simp only [resize, List.length_append, List.length_take, List.length_replicate]
  omega

/-- In the loop, started on a buffer whose size is `totalData`, every access is in bounds
and the buffer's size is `totalData` when the loop is left normally, provided each read
returns at most the number of bytes requested. -/
theorem readBody_inBounds (script : List Iteration) :
    readsWithinRequest script = true → ∀ buffer : Bytes,
      (∀ a ∈ (readBody script buffer buffer.length).accesses, a.inBounds = true)
        ∧ ((readBody script buffer buffer.length).thrown = none →
            (readBody script buffer buffer.length).responseBuffer.length
              = (readBody script buffer buffer.length).totalData) := by
  induction script with
  | nil => intro _ buffer; simp [readBody]
  | cons it rest ih =>
    intro hw buffer
    simp only [readsWithinRequest, List.all_cons, Bool.and_eq_true] at hw
    have hrest : readsWithinRequest rest = true := hw.2
    have hit := hw.1
    unfold readBody
    split
    · simp
    · rename_i availableData hqda
      split
      · simp
      · split
        · simp
        · split
          · simp [Access.inBounds, length_resize]
          · rename_i bytes hread
            have hle : bytes.length ≤ availableData := by
              simpa [Iteration.readWithinRequest, hqda, hread] using hit
            have ih2 := ih hrest
              ((buffer ++ bytes).take ((buffer.length + bytes.length) % 4294967296))
            rw [length_take_mod] at ih2
            simp only [resize_store]
            refine ⟨?_, ih2.2⟩
            intro a ha
            simp only [List.mem_cons] at ha
            rcases ha with h | h | h
            · simp [h, Access.inBounds, length_resize]
            · simp [h, Access.inBounds, length_resize, hle]
            · exact ih2.1 a h

/-- Every buffer access of `Send` is in bounds, except the subscript `responseBuffer[0]`
of line 100 when the buffer is empty. -/
theorem Send_accesses (self : HttpRequestImpl) (net : WinHttp) (req : HttpRequest)
    (hw : readsWithinRequest net.body = true) :
    ∀ a ∈ (Send self net req).accesses, a.inBounds = true ∨ a = ⟨0, 1, 0⟩ := by
  have hI := (readBody_inBounds net.body hw []).1
  simp only [List.length_nil] at hI
  unfold Send tryBlock
  cases hs : self.hSession
  · simp [hs]
  · cases hc : net.Connect with
    | failed err => simp [hs, hc]
    | ok _ =>
      cases ho : net.OpenRequest with
      | failed err => simp [hs, hc, ho]
      | ok _ =>
        cases hp : net.to_bytes req.m_JsonPayload with
        | none => simp [hs, hc, ho, hp]
        | some payload =>
          cases hsr : net.SendRequest with
          | failed err => simp [hs, hc, ho, hp, hsr]
          | ok _ =>
            cases hr : net.ReceiveResponse with
            | failed err => simp [hs, hc, ho, hp, hsr, hr]
            | ok _ =>
              cases hq : net.QueryHeaders with
              | failed err => simp [hs, hc, ho, hp, hsr, hr, hq]
              | ok http_code =>
                cases hb : (readBody net.body [] 0).thrown with
                | none =>
                  simp only [hs, hc, ho, hp, hsr, hr, hq, hb]
                  intro a ha
                  simp at ha
                  rcases ha with ha | ha
                  · exact Or.inl (hI a ha)
                  · cases hl : (readBody net.body [] 0).responseBuffer with
                    | nil => right; simp [ha, hl]
                    | cons b bs => left; simp [ha, hl, Access.inBounds]
                | some t =>
                  cases t with
                  | other =>
                    simp only [hs, hc, ho, hp, hsr, hr, hq, hb]
                    intro a ha
                    exact Or.inl (hI a (by simpa using ha))
                  | dword err =>
                    simp only [hs, hc, ho, hp, hsr, hr, hq, hb]
                    intro a ha
                    exact Or.inl (hI a (by simpa using ha))

end Desktop

namespace NonDesktop

/-! ## Backend B -/

theorem catchCode_neg (r : Raised) : catchCode r < 0 := by
  cases r <;> decide

/-- C1, counterexample. When building the request raises a platform exception, `Send`
returns from its `catch` clause without calling the completion callback: it is invoked
zero times, not once. -/
theorem Send_construct_raises_no_callback :
    callbacks ((Send ⟨⟩ constructRaises ingestRequest).trace
        ++ (Send ⟨⟩ constructRaises ingestRequest).later) = []
      ∧ (callbacks ((Send ⟨⟩ constructRaises ingestRequest).trace
        ++ (Send ⟨⟩ constructRaises ingestRequest).later)).length ≠ 1 := by
  decide

/-- When the body conversion of the second continuation raises, nothing catches the
exception and the callback is not invoked either, although `Send` has returned 0. -/
theorem Send_conversion_raises_no_callback :
    callbacks ((Send ⟨⟩ conversionRaises ingestRequest).trace
        ++ (Send ⟨⟩ conversionRaises ingestRequest).later) = []
      ∧ (Send ⟨⟩ conversionRaises ingestRequest).result = 0 := by
  decide

/-- C1, amended. For every request sent through Backend B: when nothing fails the
completion callback is invoked exactly once, with the status code and the converted body;
when the first continuation raises it is invoked exactly once; when issuing the request
raises (building the URI or content, or calling `PostAsync`) it is not invoked and `Send`
returns a negative code. -/
theorem Send_completion (self : HttpRequestImpl) (net : HttpClient) (req : HttpRequest) :
    (net.construct = none → net.PostAsync = none → net.first = none →
        ∀ srpayload : Bytes, net.to_bytes net.content = some srpayload →
          callbacks ((Send self net req).trace ++ (Send self net req).later)
            = [⟨net.StatusCode, srpayload⟩])
      ∧ (net.construct = none → net.PostAsync = none → net.first ≠ none →
          (callbacks ((Send self net req).trace ++ (Send self net req).later)).length = 1)
      ∧ ((net.construct ≠ none ∨ net.PostAsync ≠ none) →
          callbacks ((Send self net req).trace ++ (Send self net req).later) = []
            ∧ (Send self net req).result < 0) := by
  refine ⟨?_, ?_, ?_⟩
  · intro h1 h2 h3 srpayload h4
    simp [Send, firstContinuation, secondContinuation, h1, h2, h3, h4, callbacks]
  · intro h1 h2 h3
    cases hf : net.first with
    | none => exact absurd hf h3
    | some r => simp [Send, firstContinuation, h1, h2, hf, callbacks]
  · intro h
    cases h1 : net.construct with
    | some r => simp [Send, h1, callbacks, catchCode_neg]
    | none =>
      cases h2 : net.PostAsync with
      | some r => simp [Send, h1, h2, callbacks, catchCode_neg]
      | none => simp [h1, h2] at h

/-- C1, witness: one callback with status 503 and an empty payload when nothing raises,
one callback when the first continuation raises, none when building the request
raises. -/
theorem Send_completion_witness :
    callbacks ((Send ⟨⟩ unavailable ingestRequest).trace
        ++ (Send ⟨⟩ unavailable ingestRequest).later) = [⟨503, []⟩]
      ∧ (callbacks ((Send ⟨⟩ firstRaises ingestRequest).trace
        ++ (Send ⟨⟩ firstRaises ingestRequest).later)).length = 1
      ∧ callbacks ((Send ⟨⟩ constructRaises getRequest).trace
        ++ (Send ⟨⟩ constructRaises getRequest).later) = [] :=
  ⟨(Send_completion ⟨⟩ unavailable ingestRequest).1 rfl rfl rfl [] rfl,
    (Send_completion ⟨⟩ firstRaises ingestRequest).2.1 rfl rfl (by decide),
    ((Send_completion ⟨⟩ constructRaises getRequest).2.2 (Or.inl (by decide))).1⟩

/-- C7. Backend B's `Send` returns 0 exactly when initiating the request raised nothing;
otherwise it returns the negative code of the category of what was raised (-1 for a
platform exception, -3 for a standard-library exception, -2 for anything else); and the
value is the same for every environment that agrees on the initiation, whatever the
continuations do later. -/
theorem Send_result (self : HttpRequestImpl) (net : HttpClient) (req : HttpRequest) :
    ((Send self net req).result = 0 ↔ net.construct = none ∧ net.PostAsync = none)
      ∧ (∀ r : Raised, net.construct = some r ∨ (net.construct = none ∧ net.PostAsync = some r) →
          (Send self net req).result = catchCode r ∧ catchCode r < 0)
      ∧ catchCode Raised.platform = -1 ∧ catchCode Raised.standard = -3
      ∧ catchCode Raised.unknown = -2
      ∧ (∀ (other : HttpClient) (req2 : HttpRequest), other.construct = net.construct →
          other.PostAsync = net.PostAsync →
          (Send self other req2).result = (Send self net req).result) := by
  refine ⟨?_, ?_, rfl, rfl, rfl, ?_⟩
  · cases h1 : net.construct with
    | some r =>
      have := catchCode_neg r
      simp [Send, h1]
      omega
    | none =>
      cases h2 : net.PostAsync with
      | some r =>
        have := catchCode_neg r
        simp [Send, h1, h2]
        omega
      | none => simp [Send, h1, h2]
  · intro r h
    rcases h with h | ⟨h1, h2⟩
    · simp [Send, h, catchCode_neg]
    · simp [Send, h1, h2, catchCode_neg]
  · intro other req2 h1 h2
    unfold Send
    rw [h1, h2]
    cases net.construct with
    | some r => rfl
    | none => cases net.PostAsync <;> rfl

/-- C7, witness: a platform exception while building the request gives -1, and a run
whose second continuation raises returns the same value as a run in which nothing
raises. -/
theorem Send_result_witness :
    (Send ⟨⟩ constructRaises ingestRequest).result = -1
      ∧ (Send ⟨⟩ conversionRaises getRequest).result = (Send ⟨⟩ unavailable ingestRequest).result :=
  ⟨((Send_result ⟨⟩ constructRaises ingestRequest).2.1 Raised.platform (Or.inl rfl)).1,
    (Send_result ⟨⟩ unavailable ingestRequest).2.2.2.2.2 conversionRaises getRequest rfl rfl⟩

end NonDesktop

/-! ## Shutdown -/

/-- C8, counterexample. On Backend A, after an `Init` that obtained a session, two calls
of `Destroy` close the session handle twice although it was acquired once. -/
theorem Destroy_closes_session_again :
    Desktop.closed Desktop.Handle.hSession (Desktop.DestroyTwice (Desktop.Init true).1).2 = 2
      ∧ Desktop.acquired Desktop.Handle.hSession (Desktop.Init true).2 = 1 := by
  decide

/-- C8, amended. For each backend two calls of `Destroy` in succession leave the data
members as one call does. Backend B's `Destroy` does nothing, so two calls do nothing.
Backend A's `Destroy` closes the session handle at every call: once for one call, twice
for two. -/
theorem Destroy_twice (a : Desktop.HttpRequestImpl) (b : NonDesktop.HttpRequestImpl) :
    (Desktop.DestroyTwice a).1 = (Desktop.Destroy a).1
      ∧ Desktop.closed Desktop.Handle.hSession (Desktop.Destroy a).2 = 1
      ∧ Desktop.closed Desktop.Handle.hSession (Desktop.DestroyTwice a).2 = 2
      ∧ NonDesktop.DestroyTwice b = NonDesktop.Destroy b
      ∧ (NonDesktop.DestroyTwice b).2 = [] := by
  simp [Desktop.DestroyTwice, Desktop.Destroy, Desktop.closed, NonDesktop.DestroyTwice,
    NonDesktop.Destroy]

end ApplicationInsights.core
